import Mathlib

/-
Verification development for the Flyte flute-design application: a shallow
embedding of the acoustic-solver core and of the web editor's display logic,
with theorems settling the specification's testable properties.

The repository snapshot contains the web front end (`web/src/App.tsx` and
components) but not the Rust core sources (`core/physics.rs`,
`core/geometry.rs`); only the core's README and the spec describe it.  Core
operations are therefore modelled from the spec (see the doc comments marked
`Modelled from the spec:`), while the front-end functions are translated
directly from `App.tsx`.  Real-valued quantities from the code's floating
point are modelled as rationals where the logic is arithmetic, and as real
numbers where the code uses transcendental functions (log2, cos, sin, sqrt).
-/

namespace Flyte

/-- Modelled from the spec: §3 `TubeParameters` — `length`, `boreRadius`,
`wallThickness`, the global tube geometry owned by the solver instance.
(The Rust core `physics.rs` is not in the repository snapshot.) -/
structure TubeParameters where
  length : ℚ
  boreRadius : ℚ
  wallThickness : ℚ
  deriving DecidableEq

/-- Modelled from the spec: §3 `Hole` — `position` (distance from the
excitation end), `radius`, and the open/closed flag (the source field is
named `open`, which is a Lean keyword). -/
structure Hole where
  position : ℚ
  radius : ℚ
  isOpen : Bool
  deriving DecidableEq

/-- Modelled from the spec: §7 error kinds of the core —
`InvalidGeometry` for rejected mutations and `NoResonanceFound` for a
failed resonance search, surfaced as distinct outcomes. -/
inductive FluteError where
  | InvalidGeometry
  | NoResonanceFound
  deriving DecidableEq

/-- Modelled from the spec: §3 lifecycle — `TubeParameters` and the `Hole`
collection are the only persistent state of a solver instance. -/
structure SolverState where
  params : TubeParameters
  holes : List Hole
  deriving DecidableEq

/-- Modelled from the spec: §6 `setHoles` builds the new hole collection
from the three parallel arrays (positions, radii, open flags). -/
def zipHoles : List ℚ → List ℚ → List Bool → List Hole
  | p :: ps, r :: rs, o :: os => ⟨p, r, o⟩ :: zipHoles ps rs os
  | _, _, _ => []

/-- Modelled from the spec: §6 `setHoles(positions[], radii[], openFlags[])`
replaces the entire hole collection; the three arrays must have equal
length, else the call fails with an invalid-input condition, and §7 requires
the rejected mutation to be atomic (state untouched).  The result pairs the
post-call solver state with the error, if any. -/
def setHoles (st : SolverState) (positions radii : List ℚ)
    (openFlags : List Bool) : SolverState × Option FluteError :=
  if positions.length = radii.length ∧ radii.length = openFlags.length then
    ({ st with holes := zipHoles positions radii openFlags }, none)
  else (st, some FluteError.InvalidGeometry)

/-- Pixels-per-centimetre scale of the editor canvas (`App.tsx`, line 13). -/
def PX_PER_CM : ℚ := 15

/-- The position clamp applied by `handlePointerMove` before the engine call
(`App.tsx`, line 110): `newPos = Math.max(1.0, Math.min(tubeLength - 1.0, newPos))`. -/
def clampHolePosition (tubeLength newPos : ℚ) : ℚ :=
  max 1 (min (tubeLength - 1) newPos)

/-- The hole position `handlePointerMove` submits to `engine.update_hole`
during a drag (`App.tsx`, lines 105–110): the pointer x-coordinate relative
to the SVG, converted to centimetres, then clamped. -/
def dragNewPosition (tubeLength clientX svgLeft : ℚ) : ℚ :=
  clampHolePosition tubeLength ((clientX - svgLeft) / PX_PER_CM)

/-- Modelled from the spec: §4.1 fixed speed of sound in air (cm/s), a
reference-temperature constant of the core. -/
noncomputable def soundSpeed : ℝ := 34300

/-- Modelled from the spec: §4.2 air density constant ρ. -/
noncomputable def airDensity : ℝ := 1204 / 1000000

/-- Modelled from the spec: §4.1 minimum positive radius that defends the
loss model against a zero-radius segment (a clamp, not an error). -/
noncomputable def minRadius : ℝ := 1 / 1000

/-- Modelled from the spec: §4.1 closed-form viscothermal boundary-layer
coefficient; the attenuation term scales as 1/(r·√f). -/
noncomputable def lossCoefficient : ℝ := 3 / 1000

/-- Modelled from the spec: §4.1 Acoustic Loss Model — complex wavenumber
`k = 2πf/c + i·α/(r·√f)`, with the radius clamped to `minRadius`. -/
noncomputable def wavenumber (r f : ℝ) : ℂ :=
  let rc := max r minRadius
  ⟨2 * Real.pi * f / soundSpeed, lossCoefficient / (rc * Real.sqrt f)⟩

/-- Modelled from the spec: §4.2 characteristic acoustic impedance
`Z0 = ρc/(πr²)` of a cylindrical segment. -/
noncomputable def charImpedance (r : ℝ) : ℝ :=
  airDensity * soundSpeed / (Real.pi * (max r minRadius) ^ 2)

/-- Two-port ABCD transfer matrix with complex entries (spec glossary). -/
structure ABCDMatrix where
  A : ℂ
  B : ℂ
  C : ℂ
  D : ℂ

/-- The 2×2 complex identity matrix viewed as an ABCD two-port. -/
def ABCDMatrix.identity : ABCDMatrix := ⟨1, 0, 0, 1⟩

/-- Modelled from the spec: §4.2 Segment Transfer-Matrix Builder — the
standard lossy cylindrical-duct ABCD matrix `A = D = cos(kL)`,
`B = i·Z0·sin(kL)`, `C = i·sin(kL)/Z0`. -/
noncomputable def segmentMatrix (L r f : ℝ) : ABCDMatrix :=
  let kL : ℂ := wavenumber r f * (L : ℂ)
  let Z0 : ℂ := (charImpedance r : ℝ)
  ⟨Complex.cos kL, Complex.I * Z0 * Complex.sin kL,
    Complex.I * Complex.sin kL / Z0, Complex.cos kL⟩

/-- The twelve pitch-class names used by both note-display functions
(`App.tsx`, lines 479 and 651). -/
def notes : List String :=
  ["C", "C" ++ "#", "D", "D" ++ "#", "E",
    "F", "F" ++ "#", "G", "G" ++ "#", "A", "A" ++ "#", "B"]

/-- The string a JavaScript template literal renders for an out-of-bounds
array access. -/
def undefinedStr : String := "undefined"

/-- Semitone distance from A4 (`App.tsx`, line 475):
`12 * Math.log2(hz / 440)`. -/
noncomputable def semitonesFromA4 (hz : ℝ) : ℝ := 12 * Real.logb 2 (hz / 440)

/-- Rounded semitone distance (`App.tsx`, line 476); Mathlib's `round`
agrees with JavaScript's `Math.round` (half-up ties) on all reals. -/
noncomputable def roundedSemitones (hz : ℝ) : ℤ := round (semitonesFromA4 hz)

/-- Cents offset from the nearest equal-tempered note (`App.tsx`, line 477). -/
noncomputable def centsOf (hz : ℝ) : ℝ :=
  (semitonesFromA4 hz - (roundedSemitones hz : ℝ)) * 100

/-- Raw note index (`App.tsx`, line 480): `(roundedSemitones + 69) % 12`,
where JavaScript `%` is truncating remainder (`Int.tmod`). -/
noncomputable def noteIndexOf (hz : ℝ) : ℤ :=
  Int.tmod (roundedSemitones hz + 69) 12

/-- Negative-index correction (`App.tsx`, line 484):
`noteIndex < 0 ? 12 + noteIndex : noteIndex`. -/
noncomputable def normalizedIndexOf (hz : ℝ) : ℤ :=
  if noteIndexOf hz < 0 then 12 + noteIndexOf hz else noteIndexOf hz

/-- Octave number (`App.tsx`, line 481): JavaScript
`Math.floor((roundedSemitones + 69) / 12) - 1`; floor of the real quotient
of two integers is floored integer division. -/
noncomputable def octaveOf (hz : ℝ) : ℤ :=
  Int.fdiv (roundedSemitones hz + 69) 12 - 1

/-- The note-letter lookup `notes[normalizedIndex]` of `getNoteInfo`
(`App.tsx`, line 487). -/
noncomputable def noteLetterOf (hz : ℝ) : String :=
  (notes.getD (normalizedIndexOf hz).toNat) undefinedStr

/-- `getNoteInfo` (`App.tsx`, lines 472–490): note name with octave plus a
cents offset; frequencies below 20 Hz display as `--` with 0 cents. -/
noncomputable def getNoteInfo (hz : ℝ) : String × ℝ :=
  if hz < 20 then ("--", 0)
  else (noteLetterOf hz ++ toString (octaveOf hz), centsOf hz)

/-- The older `getNoteName` (`App.tsx`, lines 646–653): bare pitch-class
letter via `notes[(Math.round(12*Math.log2(hz/440)) + 69) % 12]`, with a
`--` guard only at exactly 0 Hz; a negative JavaScript index would render
`undefined`. -/
noncomputable def getNoteName (hz : ℝ) : String :=
  if hz = 0 then "--"
  else
    if Int.tmod (roundedSemitones hz + 69) 12 < 0 then undefinedStr
    else (notes.getD (Int.tmod (roundedSemitones hz + 69) 12).toNat) undefinedStr

/-- Modelled from the spec: §3 derived topology elements — a plain
cylindrical `BoreSegment` (startPos, endPos, radius) or a `HoleJunction`
referencing one hole. -/
inductive TopoElem where
  | segment (startPos endPos radius : ℚ)
  | junction (h : Hole)
  deriving DecidableEq

/-- The hole order used by the Bore Topology Builder: position ascending. -/
def holeLE (a b : Hole) : Prop := a.position ≤ b.position

instance : DecidableRel holeLE :=
  fun a b => inferInstanceAs (Decidable (a.position ≤ b.position))

instance : IsTotal Hole holeLE := ⟨fun a b => le_total a.position b.position⟩

instance : IsTrans Hole holeLE := ⟨fun _ _ _ hab hbc => le_trans hab hbc⟩

/-- Modelled from the spec: §4.4 the walk over the sorted holes, emitting a
`BoreSegment` for each inter-hole gap (including the segment before the
first hole and after the last) and a `HoleJunction` for each hole. -/
def topoWalk (tp : TubeParameters) (pos : ℚ) : List Hole → List TopoElem
  | [] => [TopoElem.segment pos tp.length tp.boreRadius]
  | h :: rest =>
      TopoElem.segment pos h.position tp.boreRadius ::
        TopoElem.junction h :: topoWalk tp h.position rest

/-- Modelled from the spec: §4.4 Bore Topology Builder — sort the holes by
`position` ascending (the caller's array order need not be spatial order),
then walk positions from 0 to `length`.  Rebuilt on every evaluation. -/
def buildTopology (tp : TubeParameters) (holes : List Hole) : List TopoElem :=
  topoWalk tp 0 (List.insertionSort holeLE holes)

/-- The partition invariant of §3, walking the element list from position
`p`: every segment starts exactly where the walk stands (no gap) and never
goes backwards (no overlap), every junction sits exactly at the walk
position, and the walk ends exactly at `q`. -/
def Chained : ℚ → List TopoElem → ℚ → Prop
  | p, [], q => p = q
  | p, TopoElem.segment a b _ :: rest, q => a = p ∧ p ≤ b ∧ Chained b rest q
  | p, TopoElem.junction h :: rest, q => h.position = p ∧ Chained p rest q

/-- The holes carried by the junctions of a topology, in emission order. -/
def junctionHoles : List TopoElem → List Hole
  | [] => []
  | TopoElem.segment _ _ _ :: rest => junctionHoles rest
  | TopoElem.junction h :: rest => h :: junctionHoles rest

/-- Segments and junctions strictly alternate, beginning and ending with a
segment, so between any two junctions lies exactly one segment. -/
def SegAlternation : List TopoElem → Prop
  | [TopoElem.segment _ _ _] => True
  | TopoElem.segment _ _ _ :: TopoElem.junction _ :: rest => SegAlternation rest
  | _ => False

/-- Modelled from the spec: §4.6 fixed low search cutoff `f_min` (20 Hz). -/
def solverFMin : ℚ := 20

/-- Modelled from the spec: §4.6 fixed upper sweep cutoff (5000 Hz). -/
def solverFMax : ℚ := 5000

/-- Modelled from the spec: §4.6 fixed absolute-frequency tolerance
(0.01 Hz) at which refinement stops. -/
def solveTol : ℚ := 1 / 100

/-- Modelled from the spec: §4.6 fixed step of the bounded local search
(the exact value is unspecified; 10 Hz here). -/
def localStep : ℚ := 10

/-- Modelled from the spec: §4.6 the local search evaluates a small number
of frequencies on each side of the guess (5 steps each side here). -/
def localSteps : Nat := 5

/-- Modelled from the spec: §4.6 fixed resolution of the coarse full-range
sweep (10 Hz here). -/
def sweepStep : ℚ := 10

/-- Number of coarse-sweep intervals: `(solverFMax - solverFMin) / sweepStep`,
covering `[20, 5000]`. -/
def sweepSteps : Nat := 498

/-- Modelled from the spec: §4.6 fixed iteration cap of the refinement. -/
def bisectCap : Nat := 60

/-- Scan `n` consecutive intervals of width `step` starting at `start` for
the §4.6 playing-resonance sign change: `Im(Z_in)` negative at the left end
and nonnegative at the right end (a negative-to-positive crossing),
returning the first bracketing interval. -/
def scanBracket (F : ℚ → ℚ) : ℚ → ℚ → Nat → Option (ℚ × ℚ)
  | _, _, 0 => none
  | start, step, n + 1 =>
      if F start < 0 ∧ 0 ≤ F (start + step) then some (start, start + step)
      else scanBracket F (start + step) step n

/-- Modelled from the spec: §4.6 bisection refinement of a bracketing
interval, to the fixed tolerance or the fixed iteration cap, whichever
triggers first. -/
def bisectRefine (F : ℚ → ℚ) : ℚ → ℚ → Nat → ℚ
  | a, b, 0 => (a + b) / 2
  | a, b, n + 1 =>
      if b - a < solveTol then (a + b) / 2
      else
        if F ((a + b) / 2) < 0 then bisectRefine F ((a + b) / 2) b n
        else bisectRefine F a ((a + b) / 2) n

/-- Modelled from the spec: §4.6 bounded local search — evaluate the
impedance at a fixed number of fixed-step frequencies around the guess. -/
def localBracket (F : ℚ → ℚ) (guess : ℚ) : Option (ℚ × ℚ) :=
  scanBracket F (guess - (localSteps : ℚ) * localStep) localStep (2 * localSteps)

/-- Modelled from the spec: §4.6 coarse full-range sweep from `f_min` to the
upper cutoff at fixed resolution, used when no crossing brackets the guess. -/
def sweepBracket (F : ℚ → ℚ) : Option (ℚ × ℚ) :=
  scanBracket F solverFMin sweepStep sweepSteps

/-- The guess-independent fallback outcome: refine the first coarse-sweep
crossing, or report no resonance. -/
def sweepPitch (F : ℚ → ℚ) : Option ℚ :=
  (sweepBracket F).map (fun p => bisectRefine F p.1 p.2 bisectCap)

/-- Modelled from the spec: §4.6 Resonance Solver `calculatePitch`.  The
impedance curve `F = Im(Z_in)` of the current topology is abstracted as a
function parameter (the cascade itself is transcendental): bracket the
guess with the bounded local search and refine, else fall back to the
coarse sweep; `none` is the distinct `NoResonanceFound` outcome. -/
def calculatePitch (F : ℚ → ℚ) (guess : ℚ) : Option ℚ :=
  match localBracket F guess with
  | some p => some (bisectRefine F p.1 p.2 bisectCap)
  | none => sweepPitch F

/-- An impedance curve with negative-to-positive crossings at 440 Hz and at
10000 Hz — a fundamental plus a much higher resonance, the qualitative
shape of a real bore's reactance. -/
def harmonicCurve (f : ℚ) : ℚ := (f - 440) * (f - 5000) * (f - 10000)

/-- An impedance curve whose only crossing (1000 Hz) lies far outside both
the 1 Hz and the 440 Hz local search windows. -/
def distantCurve (f : ℚ) : ℚ := f - 1000

/-- An impedance curve with negative-to-positive crossings at 350 Hz and at
395 Hz — two resonances 45 Hz apart. -/
def twoResonanceCurve (f : ℚ) : ℚ := if f < 370 then f - 350 else f - 395

/-- Modelled from the spec: §4.7 fixed tessellation constant — the number
of facets of the polygon-revolution approximation. -/
def meshSegments : Nat := 16

/-- The newline separator of the serialized model text. -/
def newlineStr : String := "\x0a"

/-- An exact rational point on the unit circle via the tangent half-angle
parameterization, standing in for the cos/sin facet directions of the
revolution (the model stays in ℚ; the placement of facet corners on the
circle is exact, their angular spacing approximate). -/
def circlePoint (t : ℚ) : ℚ × ℚ :=
  ((1 - t ^ 2) / (1 + t ^ 2), 2 * t / (1 + t ^ 2))

/-- Modelled from the spec: §4.7 one ring of facet-corner vertices of a
revolution solid, radius `r`, at axial position `z`. -/
def ringVertices (r z : ℚ) (n : Nat) : List (ℚ × ℚ × ℚ) :=
  (List.range n).map (fun k =>
    let p := circlePoint ((k : ℚ) / (n : ℚ) * 4 - 2)
    (r * p.1, r * p.2, z))

/-- Modelled from the spec: §4.7 the axial slice positions of the solid —
the two tube ends and both boundaries of every hole cutout, holes sliced
regardless of their `open` state, in a deterministic sorted order. -/
def slicePositions (tp : TubeParameters) (holes : List Hole) : List ℚ :=
  List.insertionSort (fun a b => a ≤ b)
    (0 :: tp.length ::
      (holes.map (fun h => h.position - h.radius) ++
        holes.map (fun h => h.position + h.radius)))

/-- Modelled from the spec: §4.7 all mesh vertices — at every slice, an
outer-wall ring (radius `boreRadius + wallThickness`) then a bore ring
(radius `boreRadius`), in slice order. -/
def meshVertices (tp : TubeParameters) (holes : List Hole) :
    List (ℚ × ℚ × ℚ) :=
  ((slicePositions tp holes).map (fun z =>
    ringVertices (tp.boreRadius + tp.wallThickness) z meshSegments ++
      ringVertices tp.boreRadius z meshSegments)).flatten

/-- Two triangles of the quad joining corner `k` of the ring based at
vertex index `base1` to the ring based at `base2`. -/
def ringFaces (base1 base2 n : Nat) : List (Nat × Nat × Nat) :=
  ((List.range n).map (fun k =>
    let k' := (k + 1) % n
    [(base1 + k, base1 + k', base2 + k),
      (base2 + k, base1 + k', base2 + k')])).flatten

/-- Modelled from the spec: §4.7 the triangulated faces — between every
pair of consecutive slices, the outer-wall band then the bore band, in
slice order. -/
def meshFaces (tp : TubeParameters) (holes : List Hole) :
    List (Nat × Nat × Nat) :=
  let stride := 2 * meshSegments
  ((List.range ((slicePositions tp holes).length - 1)).map (fun i =>
    ringFaces (stride * i) (stride * (i + 1)) meshSegments ++
      ringFaces (stride * i + meshSegments) (stride * (i + 1) + meshSegments)
        meshSegments)).flatten

/-- One `v x y z` line of the OBJ text. -/
def vertexLine (v : ℚ × ℚ × ℚ) : String :=
  "v " ++ toString v.1 ++ " " ++ toString v.2.1 ++ " " ++ toString v.2.2

/-- One `f a b c` line of the OBJ text (OBJ indices are 1-based). -/
def faceLine (f : Nat × Nat × Nat) : String :=
  "f " ++ toString (f.1 + 1) ++ " " ++ toString (f.2.1 + 1) ++ " " ++
    toString (f.2.2 + 1)

/-- Modelled from the spec: §6 `exportObj` — serialize one object: vertex
lines then face lines, a pure function of `TubeParameters` and the hole
collection (§4.7 determinism contract: no unordered iteration, no
parallel reduction). -/
def exportObj (tp : TubeParameters) (holes : List Hole) : String :=
  String.intercalate newlineStr
    ("o flute" :: ((meshVertices tp holes).map vertexLine ++
      (meshFaces tp holes).map faceLine))

/-- Claim C1: `setHoles` with three argument arrays of unequal lengths fails
with the `InvalidGeometry` error and the solver's hole collection and tube
parameters are exactly what they were before the call — the rejected
mutation is atomic, with no partial update observable. -/
theorem setHoles_mismatch_atomic (st : SolverState) (positions radii : List ℚ)
    (openFlags : List Bool)
    (h : ¬(positions.length = radii.length ∧ radii.length = openFlags.length)) :
    setHoles st positions radii openFlags = (st, some FluteError.InvalidGeometry) := by
  simp [setHoles, h]

/-- Witness for C1: a concrete mismatched call (one position, no radii, no
flags) on a concrete solver state is rejected atomically. -/
theorem setHoles_mismatch_atomic_witness :
    ¬(([(1 : ℚ)].length = ([] : List ℚ).length ∧
        ([] : List ℚ).length = ([] : List Bool).length)) ∧
      setHoles ⟨⟨60, 95/100, 2/5⟩, []⟩ [(1 : ℚ)] [] [] =
        (⟨⟨60, 95/100, 2/5⟩, []⟩, some FluteError.InvalidGeometry) :=
  ⟨by decide, setHoles_mismatch_atomic _ _ _ _ (by decide)⟩

/-- Claim C8: every hole position the UI passes to `update_hole` during a
drag satisfies the data-model precondition `0 < position < length`:
`handlePointerMove` clamps the new position to `[1, tubeLength - 1]`, so for
every pointer coordinate and every tube length greater than 2 the submitted
position lies strictly inside the tube. -/
theorem dragNewPosition_strictly_inside (tubeLength clientX svgLeft : ℚ)
    (h : 2 < tubeLength) :
    0 < dragNewPosition tubeLength clientX svgLeft ∧
      dragNewPosition tubeLength clientX svgLeft < tubeLength := by
  unfold dragNewPosition clampHolePosition
  constructor
  · exact lt_of_lt_of_le zero_lt_one (le_max_left _ _)
  · have h1 : (1 : ℚ) ≤ tubeLength - 1 := by linarith
    have h2 : max 1 (min (tubeLength - 1) ((clientX - svgLeft) / PX_PER_CM)) ≤
        tubeLength - 1 := max_le h1 (min_le_left _ _)
    linarith

/-- Witness for C8: a pointer coordinate far beyond the right end of a 60 cm
tube is clamped to a position strictly inside the tube. -/
theorem dragNewPosition_strictly_inside_witness :
    2 < (60 : ℚ) ∧
      (0 < dragNewPosition 60 1000 0 ∧ dragNewPosition 60 1000 0 < 60) :=
  ⟨by norm_num, dragNewPosition_strictly_inside 60 1000 0 (by norm_num)⟩

/-- Claim C4: for every radius `r > 0` and every frequency `f`, the Segment
Transfer-Matrix Builder applied to a segment of length `L = 0` returns
exactly the 2×2 complex identity matrix (`A = D = 1`, `B = C = 0`). -/
theorem segmentMatrix_zero_length (r f : ℝ) (hr : 0 < r) :
    segmentMatrix 0 r f = ABCDMatrix.identity := by
  unfold segmentMatrix ABCDMatrix.identity
  simp

/-- Witness for C4: the zero-length segment matrix at radius 1 and 440 Hz is
the identity. -/
theorem segmentMatrix_zero_length_witness :
    0 < (1 : ℝ) ∧ segmentMatrix 0 1 440 = ABCDMatrix.identity :=
  ⟨by norm_num, segmentMatrix_zero_length 1 440 (by norm_num)⟩

theorem semitonesFromA4_lower_bound (hz : ℝ) (h : 20 ≤ hz) :
    (-60 : ℝ) ≤ semitonesFromA4 hz := by
  unfold semitonesFromA4
  have h22 : (1 / 22 : ℝ) ≤ hz / 440 := by linarith
  have hmono : Real.logb 2 (1 / 22) ≤ Real.logb 2 (hz / 440) :=
    Real.logb_le_logb_of_le (by norm_num) (by norm_num) h22
  have hinv : Real.logb 2 (1 / 22 : ℝ) = -Real.logb 2 22 := by
    rw [one_div, Real.logb_inv]
  have h32 : Real.logb 2 (22 : ℝ) ≤ Real.logb 2 32 :=
    Real.logb_le_logb_of_le (by norm_num) (by norm_num) (by norm_num)
  have h5 : Real.logb 2 (32 : ℝ) = 5 := by
    have : (32 : ℝ) = 2 ^ (5 : ℕ) := by norm_num
    rw [this, Real.logb_pow, Real.logb_self_eq_one (by norm_num)]
    norm_num
  nlinarith [hmono, hinv ▸ hmono]

theorem roundedSemitones_add_69_nonneg (hz : ℝ) (h : 20 ≤ hz) :
    0 ≤ roundedSemitones hz + 69 := by
  have hs := semitonesFromA4_lower_bound hz h
  have hr : (-60 : ℤ) ≤ roundedSemitones hz := by
    unfold roundedSemitones
    rw [round_eq]
    refine Int.le_floor.mpr ?_
    push_cast
    linarith
  omega

/-- Claim C9: `getNoteInfo` is total and in-bounds at the display interface:
for every `hz < 20` it returns note name `--` and 0 cents; for every
`hz ≥ 20` the returned cents lies in `[-50, 50]` and the normalized note
index lies in `[0, 11]`, so the note-letter lookup never indexes outside the
twelve-element note array. -/
theorem getNoteInfo_total_in_bounds (hz : ℝ) :
    (hz < 20 → getNoteInfo hz = ("--", 0)) ∧
      (20 ≤ hz → -50 ≤ (getNoteInfo hz).2 ∧ (getNoteInfo hz).2 ≤ 50 ∧
        0 ≤ normalizedIndexOf hz ∧ normalizedIndexOf hz ≤ 11) := by
  constructor
  · intro h
    simp [getNoteInfo, h]
  · intro h
    have hnot : ¬hz < 20 := not_lt.mpr h
    have habs := abs_sub_round (semitonesFromA4 hz)
    have hbounds := abs_le.mp habs
    have hcents : -50 ≤ centsOf hz ∧ centsOf hz ≤ 50 := by
      unfold centsOf roundedSemitones
      constructor <;> nlinarith [hbounds.1, hbounds.2]
    have h0 : 0 ≤ roundedSemitones hz + 69 := roundedSemitones_add_69_nonneg hz h
    have hlo : 0 ≤ noteIndexOf hz := Int.tmod_nonneg _ h0
    have hhi : noteIndexOf hz < 12 := Int.tmod_lt_of_pos _ (by norm_num)
    have hnorm : normalizedIndexOf hz = noteIndexOf hz := by
      unfold normalizedIndexOf
      rw [if_neg (not_lt.mpr hlo)]
    refine ⟨?_, ?_, ?_, ?_⟩
    · simpa [getNoteInfo, hnot] using hcents.1
    · simpa [getNoteInfo, hnot] using hcents.2
    · rw [hnorm]; exact hlo
    · rw [hnorm]; omega

/-- Witness for C9: 10 Hz displays as `--` with 0 cents, and at 440 Hz the
cents and the normalized note index are within their display bounds. -/
theorem getNoteInfo_total_in_bounds_witness :
    ((10 : ℝ) < 20 ∧ getNoteInfo 10 = ("--", 0)) ∧
      (20 ≤ (440 : ℝ) ∧ -50 ≤ (getNoteInfo 440).2 ∧ (getNoteInfo 440).2 ≤ 50 ∧
        0 ≤ normalizedIndexOf 440 ∧ normalizedIndexOf 440 ≤ 11) :=
  ⟨⟨by norm_num, (getNoteInfo_total_in_bounds 10).1 (by norm_num)⟩,
    ⟨by norm_num, (getNoteInfo_total_in_bounds 440).2 (by norm_num)⟩⟩

/-- Claim C10: the two note-naming implementations agree on the pitch class:
for every `hz ≥ 20`, the letter returned by the older `getNoteName` equals
the letter portion of the note name returned by the newer `getNoteInfo`
(whose full name is that letter followed by the octave number). -/
theorem getNoteName_agrees_getNoteInfo (hz : ℝ) (h : 20 ≤ hz) :
    getNoteName hz = noteLetterOf hz ∧
      (getNoteInfo hz).1 = noteLetterOf hz ++ toString (octaveOf hz) := by
  have h0 : 0 ≤ roundedSemitones hz + 69 := roundedSemitones_add_69_nonneg hz h
  have hzne : hz ≠ 0 := by
    have : (0 : ℝ) < hz := by linarith
    exact this.ne'
  have htm : ¬Int.tmod (roundedSemitones hz + 69) 12 < 0 :=
    not_lt.mpr (Int.tmod_nonneg _ h0)
  constructor
  · unfold getNoteName noteLetterOf normalizedIndexOf noteIndexOf
    rw [if_neg hzne, if_neg htm, if_neg htm]
  · simp [getNoteInfo, not_lt.mpr h]

/-- Witness for C10: at 440 Hz the two implementations agree on the letter,
and `getNoteInfo`'s name is that letter followed by the octave. -/
theorem getNoteName_agrees_getNoteInfo_witness :
    20 ≤ (440 : ℝ) ∧
      (getNoteName 440 = noteLetterOf 440 ∧
        (getNoteInfo 440).1 = noteLetterOf 440 ++ toString (octaveOf 440)) :=
  ⟨by norm_num, getNoteName_agrees_getNoteInfo 440 (by norm_num)⟩

theorem topoWalk_chained (tp : TubeParameters) (hs : List Hole) :
    ∀ p : ℚ, List.Sorted holeLE hs →
      (∀ h ∈ hs, p ≤ h.position ∧ h.position ≤ tp.length) →
      p ≤ tp.length → Chained p (topoWalk tp p hs) tp.length := by
  induction hs with
  | nil =>
      intro p _ _ hple
      exact ⟨rfl, hple, rfl⟩
  | cons h rest ih =>
      intro p hsorted hmem hple
      obtain ⟨hrel, hsorted'⟩ := List.sorted_cons.mp hsorted
      have hh := hmem h (List.mem_cons_self h rest)
      refine ⟨rfl, hh.1, rfl, ?_⟩
      refine ih h.position hsorted' ?_ hh.2
      intro h' hh'
      exact ⟨hrel h' hh', (hmem h' (List.mem_cons_of_mem h hh')).2⟩

theorem junctionHoles_topoWalk (tp : TubeParameters) (hs : List Hole) :
    ∀ p : ℚ, junctionHoles (topoWalk tp p hs) = hs := by
  induction hs with
  | nil => intro p; rfl
  | cons h rest ih =>
      intro p
      simp [topoWalk, junctionHoles, ih h.position]

theorem segAlternation_topoWalk (tp : TubeParameters) (hs : List Hole) :
    ∀ p : ℚ, SegAlternation (topoWalk tp p hs) := by
  induction hs with
  | nil => intro p; trivial
  | cons h rest ih =>
      intro p
      simpa [topoWalk, SegAlternation] using ih h.position

theorem topoWalk_between_junctions (tp : TubeParameters) (hs : List Hole) :
    ∀ (p : ℚ) (l₁ l₂ : List TopoElem) (j₁ j₂ : Hole) (e : TopoElem),
      topoWalk tp p hs =
          l₁ ++ TopoElem.junction j₁ :: e :: TopoElem.junction j₂ :: l₂ →
      e = TopoElem.segment j₁.position j₂.position tp.boreRadius := by
  induction hs with
  | nil =>
      intro p l₁ l₂ j₁ j₂ e heq
      exfalso
      rcases l₁ with _ | ⟨x, l₁'⟩ <;> simp [topoWalk] at heq
  | cons h rest ih =>
      intro p l₁ l₂ j₁ j₂ e heq
      rcases l₁ with _ | ⟨x, l₁'⟩
      · simp [topoWalk] at heq
      · rw [topoWalk] at heq
        simp only [List.cons_append] at heq
        injection heq with hx heq'
        rcases l₁' with _ | ⟨y, l₁''⟩
        · simp only [List.nil_append] at heq'
          injection heq' with hj heq''
          injection hj with hj
          cases rest with
          | nil => simp [topoWalk] at heq''
          | cons r rest' =>
              rw [topoWalk] at heq''
              injection heq'' with he heq₃
              injection heq₃ with hr _
              injection hr with hr
              rw [← he, hj, hr]
        · simp only [List.cons_append] at heq'
          injection heq' with _ heq''
          exact ih h.position l₁'' l₂ j₁ j₂ e heq''

/-- Claim C2: for every `TubeParameters` and every hole collection (in any
order, including holes at numerically equal positions, with positions inside
the tube per the §3 data model), the topology produced by the Bore Topology
Builder is sorted by position and its segments and junctions partition
`[0, length]` with no gaps and no overlaps; every hole — open or closed —
yields a `HoleJunction` (the junction list is a permutation of the input),
elements alternate segment/junction, and between any two consecutive
junctions lies exactly one segment running from the first hole's position to
the second's — a zero-length segment when the two positions are equal. -/
theorem buildTopology_invariants (tp : TubeParameters) (holes : List Hole)
    (hpos : ∀ h ∈ holes, 0 ≤ h.position ∧ h.position ≤ tp.length)
    (hlen : 0 ≤ tp.length) :
    Chained 0 (buildTopology tp holes) tp.length ∧
      List.Sorted holeLE (junctionHoles (buildTopology tp holes)) ∧
      (junctionHoles (buildTopology tp holes)).Perm holes ∧
      SegAlternation (buildTopology tp holes) ∧
      (∀ (l₁ l₂ : List TopoElem) (j₁ j₂ : Hole) (e : TopoElem),
        buildTopology tp holes =
            l₁ ++ TopoElem.junction j₁ :: e :: TopoElem.junction j₂ :: l₂ →
        e = TopoElem.segment j₁.position j₂.position tp.boreRadius) := by
  have hperm : (List.insertionSort holeLE holes).Perm holes :=
    List.perm_insertionSort holeLE holes
  have hmem : ∀ h ∈ List.insertionSort holeLE holes,
      0 ≤ h.position ∧ h.position ≤ tp.length :=
    fun h hh => hpos h (hperm.mem_iff.mp hh)
  have hjh : junctionHoles (buildTopology tp holes) =
      List.insertionSort holeLE holes :=
    junctionHoles_topoWalk tp (List.insertionSort holeLE holes) 0
  refine ⟨?_, ?_, ?_, ?_, ?_⟩
  · exact topoWalk_chained tp (List.insertionSort holeLE holes) 0
      (List.sorted_insertionSort holeLE holes) hmem hlen
  · rw [hjh]; exact List.sorted_insertionSort holeLE holes
  · rw [hjh]; exact hperm
  · exact segAlternation_topoWalk tp (List.insertionSort holeLE holes) 0
  · exact topoWalk_between_junctions tp (List.insertionSort holeLE holes) 0

/-- Witness for C2: the scenario tube (60 cm, bore radius 0.95 cm) with an
unsorted hole list containing two holes at numerically equal positions
satisfies every conjunct of the topology invariant. -/
theorem buildTopology_invariants_witness :
    (∀ h ∈ [Hole.mk 45 (2/5) true, Hole.mk 25 (35/100) true,
        Hole.mk 25 (35/100) false],
      0 ≤ h.position ∧ h.position ≤ (TubeParameters.mk 60 (95/100) (2/5)).length) ∧
      0 ≤ (TubeParameters.mk 60 (95/100) (2/5)).length ∧
      (Chained 0
          (buildTopology (TubeParameters.mk 60 (95/100) (2/5))
            [Hole.mk 45 (2/5) true, Hole.mk 25 (35/100) true,
              Hole.mk 25 (35/100) false])
          (TubeParameters.mk 60 (95/100) (2/5)).length ∧
        List.Sorted holeLE
          (junctionHoles
            (buildTopology (TubeParameters.mk 60 (95/100) (2/5))
              [Hole.mk 45 (2/5) true, Hole.mk 25 (35/100) true,
                Hole.mk 25 (35/100) false])) ∧
        (junctionHoles
            (buildTopology (TubeParameters.mk 60 (95/100) (2/5))
              [Hole.mk 45 (2/5) true, Hole.mk 25 (35/100) true,
                Hole.mk 25 (35/100) false])).Perm
          [Hole.mk 45 (2/5) true, Hole.mk 25 (35/100) true,
            Hole.mk 25 (35/100) false] ∧
        SegAlternation
          (buildTopology (TubeParameters.mk 60 (95/100) (2/5))
            [Hole.mk 45 (2/5) true, Hole.mk 25 (35/100) true,
              Hole.mk 25 (35/100) false]) ∧
        (∀ (l₁ l₂ : List TopoElem) (j₁ j₂ : Hole) (e : TopoElem),
          buildTopology (TubeParameters.mk 60 (95/100) (2/5))
              [Hole.mk 45 (2/5) true, Hole.mk 25 (35/100) true,
                Hole.mk 25 (35/100) false] =
              l₁ ++ TopoElem.junction j₁ :: e :: TopoElem.junction j₂ :: l₂ →
          e = TopoElem.segment j₁.position j₂.position
              (TubeParameters.mk 60 (95/100) (2/5)).boreRadius)) :=
  ⟨by decide, by decide,
    buildTopology_invariants (TubeParameters.mk 60 (95/100) (2/5))
      [Hole.mk 45 (2/5) true, Hole.mk 25 (35/100) true,
        Hole.mk 25 (35/100) false]
      (by decide) (by decide)⟩

theorem scanBracket_zero (F : ℚ → ℚ) (start step : ℚ) :
    scanBracket F start step 0 = none := rfl

theorem scanBracket_found (F : ℚ → ℚ) (start step e : ℚ) (n : Nat)
    (he : start + step = e) (h₁ : F start < 0) (h₂ : 0 ≤ F e) :
    scanBracket F start step (n + 1) = some (start, e) := by
  rw [scanBracket, he, if_pos ⟨h₁, h₂⟩]

theorem scanBracket_next (F : ℚ → ℚ) (start step e : ℚ) (n : Nat)
    (he : start + step = e) (h : ¬(F start < 0 ∧ 0 ≤ F e)) :
    scanBracket F start step (n + 1) = scanBracket F e step n := by
  rw [scanBracket, he, if_neg h]

theorem bisectRefine_stop (F : ℚ → ℚ) (a b : ℚ) (n : Nat)
    (h : b - a < solveTol) :
    bisectRefine F a b (n + 1) = (a + b) / 2 := by
  rw [bisectRefine, if_pos h]

theorem bisectRefine_step_lt (F : ℚ → ℚ) (a b m : ℚ) (n : Nat)
    (hm : (a + b) / 2 = m)
    (h₁ : ¬(b - a < solveTol)) (h₂ : F m < 0) :
    bisectRefine F a b (n + 1) = bisectRefine F m b n := by
  rw [bisectRefine, if_neg h₁, hm, if_pos h₂]

theorem bisectRefine_step_ge (F : ℚ → ℚ) (a b m : ℚ) (n : Nat)
    (hm : (a + b) / 2 = m)
    (h₁ : ¬(b - a < solveTol)) (h₂ : ¬(F m < 0)) :
    bisectRefine F a b (n + 1) = bisectRefine F a m n := by
  rw [bisectRefine, if_neg h₁, hm, if_neg h₂]

theorem localBracket_eq_scan (F : ℚ → ℚ) (g s : ℚ)
    (hs : g - (localSteps : ℚ) * localStep = s) :
    localBracket F g = scanBracket F s localStep (2 * localSteps) := by
  unfold localBracket
  rw [hs]

theorem calculatePitch_of_bracket (F : ℚ → ℚ) (g a b : ℚ)
    (hl : localBracket F g = some (a, b)) :
    calculatePitch F g = some (bisectRefine F a b bisectCap) := by
  unfold calculatePitch
  rw [hl]

theorem calculatePitch_harmonic_10000 :
    calculatePitch harmonicCurve 10000 = some ((10239995 / 1024)) := by
  have hl : localBracket harmonicCurve 10000 = some (9990, 10000) := by
    rw [localBracket_eq_scan harmonicCurve 10000 9950 (by norm_num [localSteps, localStep])]
    show scanBracket harmonicCurve 9950 10 (9 + 1) = _
    rw [scanBracket_next harmonicCurve 9950 10 9960 9 (by norm_num)
      (by norm_num [harmonicCurve])]
    show scanBracket harmonicCurve 9960 10 (8 + 1) = _
    rw [scanBracket_next harmonicCurve 9960 10 9970 8 (by norm_num)
      (by norm_num [harmonicCurve])]
    show scanBracket harmonicCurve 9970 10 (7 + 1) = _
    rw [scanBracket_next harmonicCurve 9970 10 9980 7 (by norm_num)
      (by norm_num [harmonicCurve])]
    show scanBracket harmonicCurve 9980 10 (6 + 1) = _
    rw [scanBracket_next harmonicCurve 9980 10 9990 6 (by norm_num)
      (by norm_num [harmonicCurve])]
    show scanBracket harmonicCurve 9990 10 (5 + 1) = _
    rw [scanBracket_found harmonicCurve 9990 10 10000 5 (by norm_num)
      (by norm_num [harmonicCurve]) (by norm_num [harmonicCurve])]
  rw [calculatePitch_of_bracket harmonicCurve 10000 9990 10000 hl, Option.some_inj]
  show bisectRefine harmonicCurve 9990 10000 (59 + 1) = _
  rw [bisectRefine_step_lt harmonicCurve 9990 10000 9995 59 (by norm_num)
    (by norm_num [solveTol]) (by norm_num [harmonicCurve])]
  show bisectRefine harmonicCurve 9995 10000 (58 + 1) = _
  rw [bisectRefine_step_lt harmonicCurve 9995 10000 (19995 / 2) 58 (by norm_num)
    (by norm_num [solveTol]) (by norm_num [harmonicCurve])]
  show bisectRefine harmonicCurve (19995 / 2) 10000 (57 + 1) = _
  rw [bisectRefine_step_lt harmonicCurve (19995 / 2) 10000 (39995 / 4) 57 (by norm_num)
    (by norm_num [solveTol]) (by norm_num [harmonicCurve])]
  show bisectRefine harmonicCurve (39995 / 4) 10000 (56 + 1) = _
  rw [bisectRefine_step_lt harmonicCurve (39995 / 4) 10000 (79995 / 8) 56 (by norm_num)
    (by norm_num [solveTol]) (by norm_num [harmonicCurve])]
  show bisectRefine harmonicCurve (79995 / 8) 10000 (55 + 1) = _
  rw [bisectRefine_step_lt harmonicCurve (79995 / 8) 10000 (159995 / 16) 55 (by norm_num)
    (by norm_num [solveTol]) (by norm_num [harmonicCurve])]
  show bisectRefine harmonicCurve (159995 / 16) 10000 (54 + 1) = _
  rw [bisectRefine_step_lt harmonicCurve (159995 / 16) 10000 (319995 / 32) 54 (by norm_num)
    (by norm_num [solveTol]) (by norm_num [harmonicCurve])]
  show bisectRefine harmonicCurve (319995 / 32) 10000 (53 + 1) = _
  rw [bisectRefine_step_lt harmonicCurve (319995 / 32) 10000 (639995 / 64) 53 (by norm_num)
    (by norm_num [solveTol]) (by norm_num [harmonicCurve])]
  show bisectRefine harmonicCurve (639995 / 64) 10000 (52 + 1) = _
  rw [bisectRefine_step_lt harmonicCurve (639995 / 64) 10000 (1279995 / 128) 52 (by norm_num)
    (by norm_num [solveTol]) (by norm_num [harmonicCurve])]
  show bisectRefine harmonicCurve (1279995 / 128) 10000 (51 + 1) = _
  rw [bisectRefine_step_lt harmonicCurve (1279995 / 128) 10000 (2559995 / 256) 51 (by norm_num)
    (by norm_num [solveTol]) (by norm_num [harmonicCurve])]
  show bisectRefine harmonicCurve (2559995 / 256) 10000 (50 + 1) = _
  rw [bisectRefine_step_lt harmonicCurve (2559995 / 256) 10000 (5119995 / 512) 50 (by norm_num)
    (by norm_num [solveTol]) (by norm_num [harmonicCurve])]
  show bisectRefine harmonicCurve (5119995 / 512) 10000 (49 + 1) = _
  rw [bisectRefine_stop harmonicCurve (5119995 / 512) 10000 49 (by norm_num [solveTol])]
  norm_num

theorem calculatePitch_harmonic_440 :
    calculatePitch harmonicCurve 440 = some ((450555 / 1024)) := by
  have hl : localBracket harmonicCurve 440 = some (430, 440) := by
    rw [localBracket_eq_scan harmonicCurve 440 390 (by norm_num [localSteps, localStep])]
    show scanBracket harmonicCurve 390 10 (9 + 1) = _
    rw [scanBracket_next harmonicCurve 390 10 400 9 (by norm_num)
      (by norm_num [harmonicCurve])]
    show scanBracket harmonicCurve 400 10 (8 + 1) = _
    rw [scanBracket_next harmonicCurve 400 10 410 8 (by norm_num)
      (by norm_num [harmonicCurve])]
    show scanBracket harmonicCurve 410 10 (7 + 1) = _
    rw [scanBracket_next harmonicCurve 410 10 420 7 (by norm_num)
      (by norm_num [harmonicCurve])]
    show scanBracket harmonicCurve 420 10 (6 + 1) = _
    rw [scanBracket_next harmonicCurve 420 10 430 6 (by norm_num)
      (by norm_num [harmonicCurve])]
    show scanBracket harmonicCurve 430 10 (5 + 1) = _
    rw [scanBracket_found harmonicCurve 430 10 440 5 (by norm_num)
      (by norm_num [harmonicCurve]) (by norm_num [harmonicCurve])]
  rw [calculatePitch_of_bracket harmonicCurve 440 430 440 hl, Option.some_inj]
  show bisectRefine harmonicCurve 430 440 (59 + 1) = _
  rw [bisectRefine_step_lt harmonicCurve 430 440 435 59 (by norm_num)
    (by norm_num [solveTol]) (by norm_num [harmonicCurve])]
  show bisectRefine harmonicCurve 435 440 (58 + 1) = _
  rw [bisectRefine_step_lt harmonicCurve 435 440 (875 / 2) 58 (by norm_num)
    (by norm_num [solveTol]) (by norm_num [harmonicCurve])]
  show bisectRefine harmonicCurve (875 / 2) 440 (57 + 1) = _
  rw [bisectRefine_step_lt harmonicCurve (875 / 2) 440 (1755 / 4) 57 (by norm_num)
    (by norm_num [solveTol]) (by norm_num [harmonicCurve])]
  show bisectRefine harmonicCurve (1755 / 4) 440 (56 + 1) = _
  rw [bisectRefine_step_lt harmonicCurve (1755 / 4) 440 (3515 / 8) 56 (by norm_num)
    (by norm_num [solveTol]) (by norm_num [harmonicCurve])]
  show bisectRefine harmonicCurve (3515 / 8) 440 (55 + 1) = _
  rw [bisectRefine_step_lt harmonicCurve (3515 / 8) 440 (7035 / 16) 55 (by norm_num)
    (by norm_num [solveTol]) (by norm_num [harmonicCurve])]
  show bisectRefine harmonicCurve (7035 / 16) 440 (54 + 1) = _
  rw [bisectRefine_step_lt harmonicCurve (7035 / 16) 440 (14075 / 32) 54 (by norm_num)
    (by norm_num [solveTol]) (by norm_num [harmonicCurve])]
  show bisectRefine harmonicCurve (14075 / 32) 440 (53 + 1) = _
  rw [bisectRefine_step_lt harmonicCurve (14075 / 32) 440 (28155 / 64) 53 (by norm_num)
    (by norm_num [solveTol]) (by norm_num [harmonicCurve])]
  show bisectRefine harmonicCurve (28155 / 64) 440 (52 + 1) = _
  rw [bisectRefine_step_lt harmonicCurve (28155 / 64) 440 (56315 / 128) 52 (by norm_num)
    (by norm_num [solveTol]) (by norm_num [harmonicCurve])]
  show bisectRefine harmonicCurve (56315 / 128) 440 (51 + 1) = _
  rw [bisectRefine_step_lt harmonicCurve (56315 / 128) 440 (112635 / 256) 51 (by norm_num)
    (by norm_num [solveTol]) (by norm_num [harmonicCurve])]
  show bisectRefine harmonicCurve (112635 / 256) 440 (50 + 1) = _
  rw [bisectRefine_step_lt harmonicCurve (112635 / 256) 440 (225275 / 512) 50 (by norm_num)
    (by norm_num [solveTol]) (by norm_num [harmonicCurve])]
  show bisectRefine harmonicCurve (225275 / 512) 440 (49 + 1) = _
  rw [bisectRefine_stop harmonicCurve (225275 / 512) 440 49 (by norm_num [solveTol])]
  norm_num

theorem calculatePitch_twoRes_440 :
    calculatePitch twoResonanceCurve 440 = some ((404475 / 1024)) := by
  have hl : localBracket twoResonanceCurve 440 = some (390, 400) := by
    rw [localBracket_eq_scan twoResonanceCurve 440 390 (by norm_num [localSteps, localStep])]
    show scanBracket twoResonanceCurve 390 10 (9 + 1) = _
    rw [scanBracket_found twoResonanceCurve 390 10 400 9 (by norm_num)
      (by norm_num [twoResonanceCurve]) (by norm_num [twoResonanceCurve])]
  rw [calculatePitch_of_bracket twoResonanceCurve 440 390 400 hl, Option.some_inj]
  show bisectRefine twoResonanceCurve 390 400 (59 + 1) = _
  rw [bisectRefine_step_ge twoResonanceCurve 390 400 395 59 (by norm_num)
    (by norm_num [solveTol]) (by norm_num [twoResonanceCurve])]
  show bisectRefine twoResonanceCurve 390 395 (58 + 1) = _
  rw [bisectRefine_step_lt twoResonanceCurve 390 395 (785 / 2) 58 (by norm_num)
    (by norm_num [solveTol]) (by norm_num [twoResonanceCurve])]
  show bisectRefine twoResonanceCurve (785 / 2) 395 (57 + 1) = _
  rw [bisectRefine_step_lt twoResonanceCurve (785 / 2) 395 (1575 / 4) 57 (by norm_num)
    (by norm_num [solveTol]) (by norm_num [twoResonanceCurve])]
  show bisectRefine twoResonanceCurve (1575 / 4) 395 (56 + 1) = _
  rw [bisectRefine_step_lt twoResonanceCurve (1575 / 4) 395 (3155 / 8) 56 (by norm_num)
    (by norm_num [solveTol]) (by norm_num [twoResonanceCurve])]
  show bisectRefine twoResonanceCurve (3155 / 8) 395 (55 + 1) = _
  rw [bisectRefine_step_lt twoResonanceCurve (3155 / 8) 395 (6315 / 16) 55 (by norm_num)
    (by norm_num [solveTol]) (by norm_num [twoResonanceCurve])]
  show bisectRefine twoResonanceCurve (6315 / 16) 395 (54 + 1) = _
  rw [bisectRefine_step_lt twoResonanceCurve (6315 / 16) 395 (12635 / 32) 54 (by norm_num)
    (by norm_num [solveTol]) (by norm_num [twoResonanceCurve])]
  show bisectRefine twoResonanceCurve (12635 / 32) 395 (53 + 1) = _
  rw [bisectRefine_step_lt twoResonanceCurve (12635 / 32) 395 (25275 / 64) 53 (by norm_num)
    (by norm_num [solveTol]) (by norm_num [twoResonanceCurve])]
  show bisectRefine twoResonanceCurve (25275 / 64) 395 (52 + 1) = _
  rw [bisectRefine_step_lt twoResonanceCurve (25275 / 64) 395 (50555 / 128) 52 (by norm_num)
    (by norm_num [solveTol]) (by norm_num [twoResonanceCurve])]
  show bisectRefine twoResonanceCurve (50555 / 128) 395 (51 + 1) = _
  rw [bisectRefine_step_lt twoResonanceCurve (50555 / 128) 395 (101115 / 256) 51 (by norm_num)
    (by norm_num [solveTol]) (by norm_num [twoResonanceCurve])]
  show bisectRefine twoResonanceCurve (101115 / 256) 395 (50 + 1) = _
  rw [bisectRefine_step_lt twoResonanceCurve (101115 / 256) 395 (202235 / 512) 50 (by norm_num)
    (by norm_num [solveTol]) (by norm_num [twoResonanceCurve])]
  show bisectRefine twoResonanceCurve (202235 / 512) 395 (49 + 1) = _
  rw [bisectRefine_stop twoResonanceCurve (202235 / 512) 395 49 (by norm_num [solveTol])]
  norm_num

theorem calculatePitch_twoRes_rerun :
    calculatePitch twoResonanceCurve (404475 / 1024) = some (350) := by
  have hl : localBracket twoResonanceCurve (404475 / 1024) = some ((353275 / 1024), (363515 / 1024)) := by
    rw [localBracket_eq_scan twoResonanceCurve (404475 / 1024) (353275 / 1024) (by norm_num [localSteps, localStep])]
    show scanBracket twoResonanceCurve (353275 / 1024) 10 (9 + 1) = _
    rw [scanBracket_found twoResonanceCurve (353275 / 1024) 10 (363515 / 1024) 9 (by norm_num)
      (by norm_num [twoResonanceCurve]) (by norm_num [twoResonanceCurve])]
  rw [calculatePitch_of_bracket twoResonanceCurve (404475 / 1024) (353275 / 1024) (363515 / 1024) hl, Option.some_inj]
  show bisectRefine twoResonanceCurve (353275 / 1024) (363515 / 1024) (59 + 1) = _
  rw [bisectRefine_step_lt twoResonanceCurve (353275 / 1024) (363515 / 1024) (358395 / 1024) 59 (by norm_num)
    (by norm_num [solveTol]) (by norm_num [twoResonanceCurve])]
  show bisectRefine twoResonanceCurve (358395 / 1024) (363515 / 1024) (58 + 1) = _
  rw [bisectRefine_step_ge twoResonanceCurve (358395 / 1024) (363515 / 1024) (360955 / 1024) 58 (by norm_num)
    (by norm_num [solveTol]) (by norm_num [twoResonanceCurve])]
  show bisectRefine twoResonanceCurve (358395 / 1024) (360955 / 1024) (57 + 1) = _
  rw [bisectRefine_step_ge twoResonanceCurve (358395 / 1024) (360955 / 1024) (359675 / 1024) 57 (by norm_num)
    (by norm_num [solveTol]) (by norm_num [twoResonanceCurve])]
  show bisectRefine twoResonanceCurve (358395 / 1024) (359675 / 1024) (56 + 1) = _
  rw [bisectRefine_step_ge twoResonanceCurve (358395 / 1024) (359675 / 1024) (359035 / 1024) 56 (by norm_num)
    (by norm_num [solveTol]) (by norm_num [twoResonanceCurve])]
  show bisectRefine twoResonanceCurve (358395 / 1024) (359035 / 1024) (55 + 1) = _
  rw [bisectRefine_step_ge twoResonanceCurve (358395 / 1024) (359035 / 1024) (358715 / 1024) 55 (by norm_num)
    (by norm_num [solveTol]) (by norm_num [twoResonanceCurve])]
  show bisectRefine twoResonanceCurve (358395 / 1024) (358715 / 1024) (54 + 1) = _
  rw [bisectRefine_step_ge twoResonanceCurve (358395 / 1024) (358715 / 1024) (358555 / 1024) 54 (by norm_num)
    (by norm_num [solveTol]) (by norm_num [twoResonanceCurve])]
  show bisectRefine twoResonanceCurve (358395 / 1024) (358555 / 1024) (53 + 1) = _
  rw [bisectRefine_step_ge twoResonanceCurve (358395 / 1024) (358555 / 1024) (358475 / 1024) 53 (by norm_num)
    (by norm_num [solveTol]) (by norm_num [twoResonanceCurve])]
  show bisectRefine twoResonanceCurve (358395 / 1024) (358475 / 1024) (52 + 1) = _
  rw [bisectRefine_step_ge twoResonanceCurve (358395 / 1024) (358475 / 1024) (358435 / 1024) 52 (by norm_num)
    (by norm_num [solveTol]) (by norm_num [twoResonanceCurve])]
  show bisectRefine twoResonanceCurve (358395 / 1024) (358435 / 1024) (51 + 1) = _
  rw [bisectRefine_step_ge twoResonanceCurve (358395 / 1024) (358435 / 1024) (358415 / 1024) 51 (by norm_num)
    (by norm_num [solveTol]) (by norm_num [twoResonanceCurve])]
  show bisectRefine twoResonanceCurve (358395 / 1024) (358415 / 1024) (50 + 1) = _
  rw [bisectRefine_step_ge twoResonanceCurve (358395 / 1024) (358415 / 1024) (358405 / 1024) 50 (by norm_num)
    (by norm_num [solveTol]) (by norm_num [twoResonanceCurve])]
  show bisectRefine twoResonanceCurve (358395 / 1024) (358405 / 1024) (49 + 1) = _
  rw [bisectRefine_stop twoResonanceCurve (358395 / 1024) (358405 / 1024) 49 (by norm_num [solveTol])]
  norm_num

theorem localBracket_distant_1 : localBracket distantCurve 1 = none := by
  rw [localBracket_eq_scan distantCurve 1 (-49) (by norm_num [localSteps, localStep])]
  show scanBracket distantCurve (-49) 10 (9 + 1) = _
  rw [scanBracket_next distantCurve (-49) 10 (-39) 9 (by norm_num)
    (by norm_num [distantCurve])]
  show scanBracket distantCurve (-39) 10 (8 + 1) = _
  rw [scanBracket_next distantCurve (-39) 10 (-29) 8 (by norm_num)
    (by norm_num [distantCurve])]
  show scanBracket distantCurve (-29) 10 (7 + 1) = _
  rw [scanBracket_next distantCurve (-29) 10 (-19) 7 (by norm_num)
    (by norm_num [distantCurve])]
  show scanBracket distantCurve (-19) 10 (6 + 1) = _
  rw [scanBracket_next distantCurve (-19) 10 (-9) 6 (by norm_num)
    (by norm_num [distantCurve])]
  show scanBracket distantCurve (-9) 10 (5 + 1) = _
  rw [scanBracket_next distantCurve (-9) 10 1 5 (by norm_num)
    (by norm_num [distantCurve])]
  show scanBracket distantCurve 1 10 (4 + 1) = _
  rw [scanBracket_next distantCurve 1 10 11 4 (by norm_num)
    (by norm_num [distantCurve])]
  show scanBracket distantCurve 11 10 (3 + 1) = _
  rw [scanBracket_next distantCurve 11 10 21 3 (by norm_num)
    (by norm_num [distantCurve])]
  show scanBracket distantCurve 21 10 (2 + 1) = _
  rw [scanBracket_next distantCurve 21 10 31 2 (by norm_num)
    (by norm_num [distantCurve])]
  show scanBracket distantCurve 31 10 (1 + 1) = _
  rw [scanBracket_next distantCurve 31 10 41 1 (by norm_num)
    (by norm_num [distantCurve])]
  show scanBracket distantCurve 41 10 (0 + 1) = _
  rw [scanBracket_next distantCurve 41 10 51 0 (by norm_num)
    (by norm_num [distantCurve])]
  exact scanBracket_zero distantCurve 51 10

theorem localBracket_distant_440 : localBracket distantCurve 440 = none := by
  rw [localBracket_eq_scan distantCurve 440 390 (by norm_num [localSteps, localStep])]
  show scanBracket distantCurve 390 10 (9 + 1) = _
  rw [scanBracket_next distantCurve 390 10 400 9 (by norm_num)
    (by norm_num [distantCurve])]
  show scanBracket distantCurve 400 10 (8 + 1) = _
  rw [scanBracket_next distantCurve 400 10 410 8 (by norm_num)
    (by norm_num [distantCurve])]
  show scanBracket distantCurve 410 10 (7 + 1) = _
  rw [scanBracket_next distantCurve 410 10 420 7 (by norm_num)
    (by norm_num [distantCurve])]
  show scanBracket distantCurve 420 10 (6 + 1) = _
  rw [scanBracket_next distantCurve 420 10 430 6 (by norm_num)
    (by norm_num [distantCurve])]
  show scanBracket distantCurve 430 10 (5 + 1) = _
  rw [scanBracket_next distantCurve 430 10 440 5 (by norm_num)
    (by norm_num [distantCurve])]
  show scanBracket distantCurve 440 10 (4 + 1) = _
  rw [scanBracket_next distantCurve 440 10 450 4 (by norm_num)
    (by norm_num [distantCurve])]
  show scanBracket distantCurve 450 10 (3 + 1) = _
  rw [scanBracket_next distantCurve 450 10 460 3 (by norm_num)
    (by norm_num [distantCurve])]
  show scanBracket distantCurve 460 10 (2 + 1) = _
  rw [scanBracket_next distantCurve 460 10 470 2 (by norm_num)
    (by norm_num [distantCurve])]
  show scanBracket distantCurve 470 10 (1 + 1) = _
  rw [scanBracket_next distantCurve 470 10 480 1 (by norm_num)
    (by norm_num [distantCurve])]
  show scanBracket distantCurve 480 10 (0 + 1) = _
  rw [scanBracket_next distantCurve 480 10 490 0 (by norm_num)
    (by norm_num [distantCurve])]
  exact scanBracket_zero distantCurve 490 10

/-- Counterexample to C3 as stated: on an impedance curve with resonances
at 440 Hz and 10000 Hz, a guess of 10000 Hz makes the bounded local search
latch onto the 10 kHz crossing — a definite frequency different from the
result for a guess of 440 Hz, and not the NoResonanceFound outcome. -/
theorem calculatePitch_guess_dependent :
    calculatePitch harmonicCurve 10000 ≠ calculatePitch harmonicCurve 440 ∧
      calculatePitch harmonicCurve 10000 ≠ none := by
  rw [calculatePitch_harmonic_10000, calculatePitch_harmonic_440]
  constructor
  · intro h
    exact absurd (Option.some_inj.mp h) (by norm_num)
  · exact Option.some_ne_none _

/-- Claim C3 (amended): `calculatePitch` is a total function whose local
search, sweep and refinement all carry fixed literal step and iteration
caps, so every call terminates; and whenever the bounded local search
around the guess brackets no crossing — as for guesses far outside the
plausible range, such as 1 Hz — the call returns exactly the same outcome
(the coarse-sweep frequency or NoResonanceFound) as any other
non-bracketing guess, 440 Hz included.  A guess whose window brackets a
different resonance (e.g. 10000 Hz near a 10 kHz crossing) returns that
resonance instead. -/
theorem calculatePitch_fallback_guess_independent (F : ℚ → ℚ) (g₁ g₂ : ℚ)
    (h₁ : localBracket F g₁ = none) (h₂ : localBracket F g₂ = none) :
    calculatePitch F g₁ = calculatePitch F g₂ := by
  unfold calculatePitch
  rw [h₁, h₂]

/-- Witness for the amended C3: on a curve whose only resonance is 1000 Hz,
both the out-of-range guess 1 Hz and the default guess 440 Hz fail to
bracket locally and receive the identical fallback outcome. -/
theorem calculatePitch_fallback_guess_independent_witness :
    localBracket distantCurve 1 = none ∧ localBracket distantCurve 440 = none ∧
      calculatePitch distantCurve 1 = calculatePitch distantCurve 440 :=
  ⟨localBracket_distant_1, localBracket_distant_440,
    calculatePitch_fallback_guess_independent distantCurve 1 440
      localBracket_distant_1 localBracket_distant_440⟩

theorem scanBracket_bounds (F : ℚ → ℚ) :
    ∀ (n : Nat) (start step a b : ℚ), 0 ≤ step →
      scanBracket F start step n = some (a, b) →
      start ≤ a ∧ b ≤ start + n * step ∧ b = a + step := by
  intro n
  induction n with
  | zero => intro start step a b _ h; simp [scanBracket] at h
  | succ n ih =>
      intro start step a b hstep h
      rw [scanBracket] at h
      by_cases hc : F start < 0 ∧ 0 ≤ F (start + step)
      · rw [if_pos hc] at h
        injection h with h
        injection h with ha hb
        subst ha
        subst hb
        have hn : (0 : ℚ) ≤ n * step := by positivity
        refine ⟨le_refl _, ?_, rfl⟩
        push_cast
        linarith
      · rw [if_neg hc] at h
        obtain ⟨h1, h2, h3⟩ := ih (start + step) step a b hstep h
        refine ⟨by linarith, ?_, h3⟩
        push_cast
        linarith

theorem bisectRefine_mem (F : ℚ → ℚ) :
    ∀ (n : Nat) (a b : ℚ), a ≤ b →
      a ≤ bisectRefine F a b n ∧ bisectRefine F a b n ≤ b := by
  intro n
  induction n with
  | zero =>
      intro a b hab
      unfold bisectRefine
      constructor <;> [linarith; linarith]
  | succ n ih =>
      intro a b hab
      rw [bisectRefine]
      by_cases htol : b - a < solveTol
      · rw [if_pos htol]
        constructor <;> [linarith; linarith]
      · rw [if_neg htol]
        have hmid₁ : a ≤ (a + b) / 2 := by linarith
        have hmid₂ : (a + b) / 2 ≤ b := by linarith
        by_cases hF : F ((a + b) / 2) < 0
        · rw [if_pos hF]
          obtain ⟨hl, hr⟩ := ih ((a + b) / 2) b hmid₂
          exact ⟨le_trans hmid₁ hl, hr⟩
        · rw [if_neg hF]
          obtain ⟨hl, hr⟩ := ih a ((a + b) / 2) hmid₁
          exact ⟨hl, le_trans hr hmid₂⟩

/-- Counterexample to C7 as stated: on an impedance curve with resonances
at 350 Hz and 395 Hz, a first call with guess 440 Hz returns ≈395 Hz
(404475/1024), but the immediate re-run with that result as the guess
brackets the lower resonance inside its local window and returns 350 Hz —
about 45 Hz away, far outside the ±0.01 Hz tolerance. -/
theorem calculatePitch_rerun_not_idempotent :
    calculatePitch twoResonanceCurve 440 = some (404475 / 1024) ∧
      calculatePitch twoResonanceCurve (404475 / 1024) = some 350 ∧
      1 / 100 < |(350 : ℚ) - 404475 / 1024| := by
  refine ⟨calculatePitch_twoRes_440, calculatePitch_twoRes_rerun, ?_⟩
  rw [abs_of_neg (by norm_num)]
  norm_num

/-- Claim C7 (amended): if `calculatePitch(guess)` returns frequency `f`,
an immediately following `calculatePitch(f)` with unchanged geometry either
returns a frequency within the local-search span (±50 Hz in the modelled
configuration) of `f`, or returns the guess-independent coarse-sweep
outcome; the ±0.01 Hz tolerance of the original claim fails because the
local window around `f` can bracket a different, lower resonance. -/
theorem calculatePitch_rerun_bounded (F : ℚ → ℚ) (g f : ℚ)
    (h : calculatePitch F g = some f) :
    (∃ f', calculatePitch F f = some f' ∧
        |f' - f| ≤ (localSteps : ℚ) * localStep) ∨
      calculatePitch F f = sweepPitch F := by
  cases hb : localBracket F f with
  | none =>
      right
      unfold calculatePitch
      rw [hb]
  | some p =>
      left
      obtain ⟨a, b⟩ := p
      have hbounds := scanBracket_bounds F (2 * localSteps)
        (f - (localSteps : ℚ) * localStep) localStep a b
        (by norm_num [localStep]) hb
      obtain ⟨hsa, hsb, hba⟩ := hbounds
      have hab : a ≤ b := by rw [hba]; norm_num [localStep]
      obtain ⟨hl, hr⟩ := bisectRefine_mem F bisectCap a b hab
      refine ⟨bisectRefine F a b bisectCap, ?_, ?_⟩
      · unfold calculatePitch
        rw [hb]
      · rw [abs_le]
        norm_num [localSteps, localStep] at hsa hsb ⊢
        constructor <;> linarith

/-- Witness for the amended C7: the two-resonance curve's first call at
guess 440 Hz returns 404475/1024 Hz, and the re-run at that frequency
satisfies the amended disjunction. -/
theorem calculatePitch_rerun_bounded_witness :
    calculatePitch twoResonanceCurve 440 = some (404475 / 1024) ∧
      ((∃ f', calculatePitch twoResonanceCurve (404475 / 1024) = some f' ∧
          |f' - 404475 / 1024| ≤ (localSteps : ℚ) * localStep) ∨
        calculatePitch twoResonanceCurve (404475 / 1024) =
          sweepPitch twoResonanceCurve) :=
  ⟨calculatePitch_twoRes_440,
    calculatePitch_rerun_bounded twoResonanceCurve 440 (404475 / 1024)
      calculatePitch_twoRes_440⟩

/-- Claim C5: for every fixed geometry, two calls to `exportObj` produce
byte-identical output text — the mesh generator is a deterministic (pure)
function of its input, so any two invocations on equal tube parameters and
equal hole lists yield equal strings, with reproducible vertex and face
ordering. -/
theorem exportObj_deterministic (tp₁ tp₂ : TubeParameters)
    (holes₁ holes₂ : List Hole) (hp : tp₁ = tp₂) (hh : holes₁ = holes₂) :
    exportObj tp₁ holes₁ = exportObj tp₂ holes₂ := by
  rw [hp, hh]

/-- Witness for C5: two calls on the scenario geometry (60 cm tube, one
open and one closed hole) agree byte for byte. -/
theorem exportObj_deterministic_witness :
    TubeParameters.mk 60 (95/100) (2/5) = TubeParameters.mk 60 (95/100) (2/5) ∧
      [Hole.mk 25 (35/100) true, Hole.mk 45 (2/5) false] =
        [Hole.mk 25 (35/100) true, Hole.mk 45 (2/5) false] ∧
      exportObj (TubeParameters.mk 60 (95/100) (2/5))
          [Hole.mk 25 (35/100) true, Hole.mk 45 (2/5) false] =
        exportObj (TubeParameters.mk 60 (95/100) (2/5))
          [Hole.mk 25 (35/100) true, Hole.mk 45 (2/5) false] :=
  ⟨rfl, rfl,
    exportObj_deterministic (TubeParameters.mk 60 (95/100) (2/5))
      (TubeParameters.mk 60 (95/100) (2/5))
      [Hole.mk 25 (35/100) true, Hole.mk 45 (2/5) false]
      [Hole.mk 25 (35/100) true, Hole.mk 45 (2/5) false] rfl rfl⟩

end Flyte
